import Mathlib

/-!
# Shallow embedding of the raftstore write router

This file embeds `components/raftstore/src/store/async_io/write_router.rs`
(the per-peer `WriteRouter` state machine, its shared reschedule counter and
the cached sender view) and proves properties of its operations.

Modelling conventions:
* `usize`/`u64` values are `Nat`; the shared `AtomicUsize` counter wraps at
  `2 ^ 64` on `fetch_sub`, which `usizeDec` makes explicit.
* Wall-clock instants and durations are `Nat` (milliseconds); the
  `Instant::now_coarse()` reads performed inside one operation are modelled
  by a single `now` parameter of that operation.
* `rand::random::<usize>()` draws are oracle parameters (`draw`); Rust's
  `%` panics on a zero divisor, so branches that compute `draw % 0` return
  `none` (the panic outcome), as do out-of-range indexing of the cached
  sender vector, `.unwrap()` on `None`, and a disconnected channel
  (`safe_panic!`).
* The channel outcome of each `try_send`/fallback `send` pair is an oracle
  value of type `TrySendResult`.
* Observable effects on the environment (the shared counter, the two
  gauges, the block-wait histogram and the messages handed to workers)
  are threaded through a `GlobalState`; `delivered` records, in order,
  each `(worker id, message)` actually enqueued to a worker channel.
-/

namespace WriteRouterModel

/-- `const RETRY_SCHEDULE_MILLISECONDS: u64 = 10` (write_router.rs line 30). -/
def RETRY_SCHEDULE_MILLISECONDS : Nat := 10

/-- Modulus of `usize` arithmetic (64-bit platform). -/
def USIZE_MOD : Nat := 2 ^ 64

/-- Wrapping decrement performed by `fetch_sub(1, Ordering::SeqCst)` on an
`AtomicUsize`. -/
def usizeDec (c : Nat) : Nat := (c + (USIZE_MOD - 1)) % USIZE_MOD

/-- The configuration fields of `Config` that `WriteRouter` reads:
`store_io_pool_size`, `io_reschedule_concurrent_max_count` and
`io_reschedule_hotpot_duration` (in milliseconds). -/
structure Config where
  store_io_pool_size : Nat
  io_reschedule_concurrent_max_count : Nat
  io_reschedule_hotpot_duration : Nat
  deriving DecidableEq

/-- The mutable per-peer state of `WriteRouter<EK, ER>` (write_router.rs
lines 61-79), with `WriteMsg` kept abstract as a type parameter. -/
structure WriteRouter (Msg : Type) where
  tag : String
  writer_id : Nat
  next_retry_time : Nat
  next_writer_id : Option Nat
  last_unpersisted : Option Nat
  pending_write_msgs : List Msg
  last_msg_priority : Option Nat
  deriving DecidableEq

/-- Environment state shared with a router: the `io_reschedule_concurrent_count`
atomic counter of `WriteSenders`, the two prometheus gauges, the number of
`write_block_wait` observations, and the ordered trace of messages enqueued to
worker channels (paired with the receiving worker id). -/
structure GlobalState (Msg : Type) where
  io_reschedule_concurrent_count : Nat
  pending_tasks_gauge : Int
  reschedule_peer_gauge : Int
  block_wait_observations : Nat
  delivered : List (Nat × Msg)
  deriving DecidableEq

/-- The environment at process start: counter `Arc::default()` is `0`, the
gauges start at `0`, nothing delivered yet. -/
def GlobalState.init {Msg : Type} : GlobalState Msg :=
  { io_reschedule_concurrent_count := 0
    pending_tasks_gauge := 0
    reschedule_peer_gauge := 0
    block_wait_observations := 0
    delivered := [] }

/-- `WriteRouter::new(tag)` (write_router.rs lines 86-96); `now` is the
`Instant::now_coarse()` read. -/
def WriteRouter.new {Msg : Type} (tag : String) (now : Nat) : WriteRouter Msg :=
  { tag := tag
    writer_id := 0
    next_retry_time := now
    next_writer_id := none
    last_unpersisted := none
    pending_write_msgs := []
    last_msg_priority := none }

/-- Outcome of the channel interaction of one `WriteRouter::send` call:
`try_send` returned `Ok(priority)`, or `Err(Full)` followed by a blocking
`send` that succeeded (`true`) or returned `Err` (`false`), or
`Err(Disconnected)`. -/
inductive TrySendResult where
  | ok (priority : Option Nat)
  | full (blocking_send_ok : Bool)
  | disconnected
  deriving DecidableEq

/-- Whether the channel interaction enqueues the message (no `safe_panic!`). -/
def TrySendResult.succeeds : TrySendResult → Bool
  | .ok _ => true
  | .full b => b
  | .disconnected => false

/-- `WriteRouter::send` (write_router.rs lines 239-262). `viewSize` is
`ctx.write_senders().size()`, the length of the cached sender vector; the
`Index` impl (lines 343-350) panics when `writer_id` is out of range, hence
the bound check. On `Ok(priority)` the router stores the new priority token;
on `Full` + successful blocking send the priority is left unchanged and one
`write_block_wait` observation is recorded; `Disconnected` (or a failing
blocking send) is `safe_panic!`. -/
def send {Msg : Type} (viewSize : Nat) (res : TrySendResult)
    (r : WriteRouter Msg) (g : GlobalState Msg) (msg : Msg) :
    Option (WriteRouter Msg × GlobalState Msg) :=
  if r.writer_id < viewSize then
    match res with
    | .ok p =>
        some ({ r with last_msg_priority := p },
          { g with delivered := g.delivered ++ [(r.writer_id, msg)] })
    | .full true =>
        some (r,
          { g with
              delivered := g.delivered ++ [(r.writer_id, msg)]
              block_wait_observations := g.block_wait_observations + 1 })
    | .full false => none
    | .disconnected => none
  else none

/-- The `fetch_update` compare-and-increment on
`io_reschedule_concurrent_count` and the two exits that follow it
(write_router.rs lines 213-236): on success the counter and the peer gauge
are incremented, `last_unpersisted := lu` and the result is `false`; at the
cap, `next_retry_time := now + RETRY_SCHEDULE_MILLISECONDS` and the result is
`true`. -/
def tryGate {Msg : Type} (cfg : Config) (now : Nat) (lu : Option Nat)
    (r : WriteRouter Msg) (g : GlobalState Msg) :
    Bool × WriteRouter Msg × GlobalState Msg :=
  if g.io_reschedule_concurrent_count < cfg.io_reschedule_concurrent_max_count then
    (false, { r with last_unpersisted := lu },
      { g with
          io_reschedule_concurrent_count := g.io_reschedule_concurrent_count + 1
          reschedule_peer_gauge := g.reschedule_peer_gauge + 1 })
  else
    (true, { r with next_retry_time := now + RETRY_SCHEDULE_MILLISECONDS }, g)

/-- The local `async_io_pool_size` of `should_send` (write_router.rs lines
177-178): the effective pool size, clamping the configured size by the length
of the cached sender vector. -/
def async_io_pool_size (cfg : Config) (viewSize : Nat) : Nat :=
  min viewSize cfg.store_io_pool_size

/-- `WriteRouter::should_send` (write_router.rs lines 165-237), written as an
if-else chain mirroring the source's early returns. `draw` is the value of the
(at most one) `rand::random::<usize>()` call of this invocation; `none` is the
mod-by-zero panic when the effective pool size is `0`. -/
def should_send {Msg : Type} (cfg : Config) (viewSize draw now : Nat)
    (lu : Option Nat) (r : WriteRouter Msg) (g : GlobalState Msg) :
    Option (Bool × WriteRouter Msg × GlobalState Msg) :=
  if r.last_unpersisted.isSome then
    some (false, r, g)
  else if lu.isNone then
    if async_io_pool_size cfg viewSize = 0 then none
    else
      some (true,
        { r with
            writer_id := draw % async_io_pool_size cfg viewSize
            next_retry_time := now + cfg.io_reschedule_hotpot_duration
            next_writer_id := none }, g)
  else if cfg.io_reschedule_concurrent_max_count = 0 then some (true, r, g)
  else if now ≤ r.next_retry_time then some (true, r, g)
  else if r.next_writer_id.isNone then
    if async_io_pool_size cfg viewSize = 0 then none
    else if draw % async_io_pool_size cfg viewSize = r.writer_id then
      some (true,
        { r with next_retry_time := now + cfg.io_reschedule_hotpot_duration }, g)
    else
      some (tryGate cfg now lu
        { r with next_writer_id := some (draw % async_io_pool_size cfg viewSize) } g)
  else some (tryGate cfg now lu r g)

/-- `WriteRouter::send_write_msg` (write_router.rs lines 100-116): reset
`last_msg_priority` when the peer has no outstanding write, then either
forward through `send` or buffer the message (incrementing the pending-task
gauge). -/
def send_write_msg {Msg : Type} (cfg : Config) (viewSize draw now : Nat)
    (res : TrySendResult) (lu : Option Nat) (msg : Msg)
    (r : WriteRouter Msg) (g : GlobalState Msg) :
    Option (WriteRouter Msg × GlobalState Msg) :=
  match should_send cfg viewSize draw now lu
      (if lu.isNone then { r with last_msg_priority := none } else r) g with
  | none => none
  | some (true, r, g) => send viewSize res r g msg
  | some (false, r, g) =>
      some ({ r with pending_write_msgs := r.pending_write_msgs ++ [msg] },
        { g with pending_tasks_gauge := g.pending_tasks_gauge + 1 })

/-- The drain loop `for m in msgs { self.send(ctx, m); }` at the end of
`check_new_persisted`; `oracle i` is the channel outcome of the `i`-th send. -/
def drain {Msg : Type} (viewSize : Nat) (oracle : Nat → TrySendResult) :
    Nat → List Msg → WriteRouter Msg → GlobalState Msg →
    Option (WriteRouter Msg × GlobalState Msg)
  | _, [], r, g => some (r, g)
  | i, m :: ms, r, g =>
      match send viewSize (oracle i) r g m with
      | none => none
      | some (r, g) => drain viewSize oracle (i + 1) ms r g

/-- The router state right after `check_new_persisted` observes the migration
precondition (write_router.rs lines 138-143): `writer_id` becomes the taken
`next_writer_id`, the retry time moves past the cool-down, the migration
markers are cleared and the buffer is handed to the drain loop. -/
def completionRouter {Msg : Type} (cfg : Config) (now nid : Nat)
    (r : WriteRouter Msg) : WriteRouter Msg :=
  { r with
      writer_id := nid
      next_retry_time := now + cfg.io_reschedule_hotpot_duration
      last_unpersisted := none
      next_writer_id := none
      pending_write_msgs := [] }

/-- The environment right after migration completion, before the drain loop:
`io_reschedule_concurrent_count` is `fetch_sub`-decremented, the peer gauge
drops by one, and the pending-task gauge drops by the buffer length
(write_router.rs lines 132-136 and 152). -/
def completionGlobal {Msg : Type} (g : GlobalState Msg) (len : Nat) :
    GlobalState Msg :=
  { g with
      io_reschedule_concurrent_count := usizeDec g.io_reschedule_concurrent_count
      reschedule_peer_gauge := g.reschedule_peer_gauge - 1
      pending_tasks_gauge := g.pending_tasks_gauge - (len : Int) }

/-- `WriteRouter::check_new_persisted` (write_router.rs lines 121-157). The
`none` result is the `next_writer_id.take().unwrap()` panic (the counter
decrement that precedes it in the source has no observable survivor in that
case, so it is folded into the panic outcome). -/
def check_new_persisted {Msg : Type} (cfg : Config) (viewSize now : Nat)
    (oracle : Nat → TrySendResult) (persisted_number : Nat)
    (r : WriteRouter Msg) (g : GlobalState Msg) :
    Option (WriteRouter Msg × GlobalState Msg) :=
  match r.last_unpersisted with
  | none => some (r, g)
  | some n =>
      if persisted_number < n then some (r, g)
      else
        match r.next_writer_id with
        | none => none
        | some nid =>
            drain viewSize oracle 0 r.pending_write_msgs
              (completionRouter cfg now nid r)
              (completionGlobal g r.pending_write_msgs.length)

/-- States of one router (with the shared environment) reachable through
`new`, `send_write_msg` and `check_new_persisted`; `extGate` models the other
peers of the process acting on the shared `io_reschedule_concurrent_count`
counter (the router's own fields are theirs alone). Each call may observe a
fresh configuration snapshot, view size, random draw, clock reading and
channel outcome. -/
inductive Reachable {Msg : Type} : WriteRouter Msg × GlobalState Msg → Prop where
  | init (tag : String) (now : Nat) :
      Reachable (WriteRouter.new tag now, GlobalState.init)
  | sendStep (cfg : Config) (viewSize draw now : Nat) (res : TrySendResult)
      (lu : Option Nat) (msg : Msg) (s s' : WriteRouter Msg × GlobalState Msg) :
      Reachable s →
      send_write_msg cfg viewSize draw now res lu msg s.1 s.2 = some s' →
      Reachable s'
  | persistStep (cfg : Config) (viewSize now : Nat) (oracle : Nat → TrySendResult)
      (p : Nat) (s s' : WriteRouter Msg × GlobalState Msg) :
      Reachable s →
      check_new_persisted cfg viewSize now oracle p s.1 s.2 = some s' →
      Reachable s'
  | extGate (c : Nat) (s : WriteRouter Msg × GlobalState Msg) :
      Reachable s →
      Reachable (s.1, { s.2 with io_reschedule_concurrent_count := c })

/-- The single-router state invariant: a candidate target worker is always
distinct from the current one, and a migration in flight always has a
candidate. -/
def RouterInv {Msg : Type} (r : WriteRouter Msg) : Prop :=
  (∀ id, r.next_writer_id = some id → id ≠ r.writer_id) ∧
  (r.last_unpersisted.isSome = true → r.next_writer_id.isSome = true)

/-- One later call on the router after its first send: a `send_write_msg`
carrying an outstanding write (`last_unpersisted` argument `some l`), or a
`check_new_persisted`; each step carries its own configuration snapshot,
view size, clock reading and channel oracle. -/
inductive Step (Msg : Type) where
  | write (cfg : Config) (viewSize draw now : Nat) (res : TrySendResult)
      (l : Nat) (msg : Msg)
  | persist (cfg : Config) (viewSize now : Nat) (oracle : Nat → TrySendResult)
      (p : Nat)

/-- The `io_reschedule_concurrent_max_count` of the step's config snapshot. -/
def Step.maxCount {Msg : Type} : Step Msg → Nat
  | .write cfg _ _ _ _ _ _ => cfg.io_reschedule_concurrent_max_count
  | .persist cfg _ _ _ _ => cfg.io_reschedule_concurrent_max_count

/-- Apply one step to the router and its environment. -/
def applyStep {Msg : Type} :
    Step Msg → WriteRouter Msg × GlobalState Msg →
    Option (WriteRouter Msg × GlobalState Msg)
  | .write cfg viewSize draw now res l msg, (r, g) =>
      send_write_msg cfg viewSize draw now res (some l) msg r g
  | .persist cfg viewSize now oracle p, (r, g) =>
      check_new_persisted cfg viewSize now oracle p r g

/-- Run a sequence of steps, stopping on a panic. -/
def runSteps {Msg : Type} :
    List (Step Msg) → WriteRouter Msg × GlobalState Msg →
    Option (WriteRouter Msg × GlobalState Msg)
  | [], s => some s
  | st :: rest, s =>
      match applyStep st s with
      | none => none
      | some s2 => runSteps rest s2

/-- Fields of the router and environment that one successful `send` call does
not touch, plus what it does: the message is enqueued to worker `writer_id`
(which must be in range of the cached sender vector). -/
theorem send_some_spec {Msg : Type} {viewSize : Nat} {res : TrySendResult}
    {r r' : WriteRouter Msg} {g g' : GlobalState Msg} {msg : Msg}
    (h : send viewSize res r g msg = some (r', g')) :
    r'.tag = r.tag ∧ r'.writer_id = r.writer_id ∧
    r'.next_writer_id = r.next_writer_id ∧
    r'.last_unpersisted = r.last_unpersisted ∧
    r'.next_retry_time = r.next_retry_time ∧
    r'.pending_write_msgs = r.pending_write_msgs ∧
    g'.io_reschedule_concurrent_count = g.io_reschedule_concurrent_count ∧
    g'.pending_tasks_gauge = g.pending_tasks_gauge ∧
    g'.reschedule_peer_gauge = g.reschedule_peer_gauge ∧
    g'.delivered = g.delivered ++ [(r.writer_id, msg)] ∧
    r.writer_id < viewSize := by
  unfold send at h
  by_cases hb : r.writer_id < viewSize
  · rw [if_pos hb] at h
    cases res with
    | ok p =>
        simp only [Option.some.injEq, Prod.mk.injEq] at h
        obtain ⟨hr, hg⟩ := h
        subst hr; subst hg
        refine ⟨rfl, rfl, rfl, rfl, rfl, rfl, rfl, rfl, rfl, rfl, hb⟩
    | full bb =>
        cases bb with
        | true =>
            simp only [Option.some.injEq, Prod.mk.injEq] at h
            obtain ⟨hr, hg⟩ := h
            subst hr; subst hg
            refine ⟨rfl, rfl, rfl, rfl, rfl, rfl, rfl, rfl, rfl, rfl, hb⟩
        | false => simp at h
    | disconnected => simp at h
  · rw [if_neg hb] at h
    simp at h

/-- When the channel interaction succeeds and `writer_id` is in range, `send`
returns `some` and its result is the frame of `send_some_spec`. -/
theorem send_succeeds {Msg : Type} (viewSize : Nat) (res : TrySendResult)
    (r : WriteRouter Msg) (g : GlobalState Msg) (msg : Msg)
    (hb : r.writer_id < viewSize) (hs : res.succeeds = true) :
    ∃ r' g', send viewSize res r g msg = some (r', g') := by
  cases res with
  | ok p => exact ⟨_, _, by rw [send, if_pos hb]⟩
  | full bb =>
      cases bb with
      | true => exact ⟨_, _, by rw [send, if_pos hb]⟩
      | false => simp [TrySendResult.succeeds] at hs
  | disconnected => simp [TrySendResult.succeeds] at hs

/-- The drain loop of `check_new_persisted`: when every channel interaction
succeeds and the (fixed) `writer_id` is in range, all buffered messages are
enqueued to that worker in buffer order and the router fields other than
`last_msg_priority` are untouched, as is the shared counter. -/
theorem drain_spec {Msg : Type} (viewSize : Nat) (oracle : Nat → TrySendResult)
    (hok : ∀ i, (oracle i).succeeds = true) :
    ∀ (msgs : List Msg) (i : Nat) (r : WriteRouter Msg) (g : GlobalState Msg),
      r.writer_id < viewSize →
      ∃ r' g', drain viewSize oracle i msgs r g = some (r', g') ∧
        r'.writer_id = r.writer_id ∧ r'.next_writer_id = r.next_writer_id ∧
        r'.last_unpersisted = r.last_unpersisted ∧
        r'.next_retry_time = r.next_retry_time ∧
        r'.pending_write_msgs = r.pending_write_msgs ∧
        g'.io_reschedule_concurrent_count = g.io_reschedule_concurrent_count ∧
        g'.delivered = g.delivered ++ msgs.map (fun m => (r.writer_id, m)) := by
  intro msgs
  induction msgs with
  | nil =>
      intro i r g hb
      exact ⟨r, g, rfl, rfl, rfl, rfl, rfl, rfl, rfl, by simp⟩
  | cons m ms ih =>
      intro i r g hb
      obtain ⟨r1, g1, hsend⟩ := send_succeeds viewSize (oracle i) r g m hb (hok i)
      obtain ⟨-, hw, hnw, hlu, hrt, hp, hcnt, -, -, hdel, -⟩ := send_some_spec hsend
      obtain ⟨r', g', hdr, hw', hnw', hlu', hrt', hp', hcnt', hdel'⟩ :=
        ih (i + 1) r1 g1 (hw ▸ hb)
      refine ⟨r', g', ?_, ?_, ?_, ?_, ?_, ?_, ?_, ?_⟩
      · rw [drain, hsend]
        exact hdr
      · rw [hw', hw]
      · rw [hnw', hnw]
      · rw [hlu', hlu]
      · rw [hrt', hrt]
      · rw [hp', hp]
      · rw [hcnt', hcnt]
      · rw [hdel', hdel, hw]
        simp

/-- Frame of a successful drain, with no assumption on the channel outcomes:
whatever happened, the router fields other than `last_msg_priority` are
unchanged. -/
theorem drain_frame {Msg : Type} (viewSize : Nat) (oracle : Nat → TrySendResult) :
    ∀ (msgs : List Msg) (i : Nat) (r r' : WriteRouter Msg) (g g' : GlobalState Msg),
      drain viewSize oracle i msgs r g = some (r', g') →
      r'.writer_id = r.writer_id ∧ r'.next_writer_id = r.next_writer_id ∧
      r'.last_unpersisted = r.last_unpersisted ∧
      r'.pending_write_msgs = r.pending_write_msgs := by
  intro msgs
  induction msgs with
  | nil =>
      intro i r r' g g' h
      rw [drain] at h
      simp only [Option.some.injEq, Prod.mk.injEq] at h
      obtain ⟨hr, -⟩ := h
      subst hr
      exact ⟨rfl, rfl, rfl, rfl⟩
  | cons m ms ih =>
      intro i r r' g g' h
      rw [drain] at h
      cases hsend : send viewSize (oracle i) r g m with
      | none => rw [hsend] at h; simp at h
      | some s1 =>
          obtain ⟨r1, g1⟩ := s1
          rw [hsend] at h
          obtain ⟨-, hw, hnw, hlu, -, hp, -⟩ := send_some_spec hsend
          obtain ⟨hw', hnw', hlu', hp'⟩ := ih (i + 1) r1 r' g1 g' h
          exact ⟨hw'.trans hw, hnw'.trans hnw, hlu'.trans hlu, hp'.trans hp⟩

/-- `fetch_sub(1, _)` on a positive in-range counter is plain decrement. -/
theorem usizeDec_eq {c : Nat} (h1 : 0 < c) (h2 : c < USIZE_MOD) :
    usizeDec c = c - 1 := by
  unfold usizeDec USIZE_MOD at *
  have hM : (2 : Nat) ^ 64 = 18446744073709551616 := by norm_num
  rw [hM] at *
  omega

/-- `should_send` during a migration: buffer, touching nothing. -/
theorem should_send_migrating_eq {Msg : Type} {cfg : Config}
    {viewSize draw now : Nat} {lu : Option Nat} {r : WriteRouter Msg}
    {g : GlobalState Msg} (hm : r.last_unpersisted.isSome = true) :
    should_send cfg viewSize draw now lu r g = some (false, r, g) := by
  simp [should_send, hm]

/-- `should_send` with no outstanding write redraws the worker uniformly over
the effective pool. -/
theorem should_send_fresh_eq {Msg : Type} {cfg : Config}
    {viewSize draw now : Nat} {r : WriteRouter Msg} {g : GlobalState Msg}
    (hm : r.last_unpersisted = none)
    (hsz : async_io_pool_size cfg viewSize ≠ 0) :
    should_send cfg viewSize draw now none r g =
      some (true,
        { r with
            writer_id := draw % async_io_pool_size cfg viewSize
            next_retry_time := now + cfg.io_reschedule_hotpot_duration
            next_writer_id := none }, g) := by
  simp [should_send, hm, hsz]

/-- `should_send` with no outstanding write and a zero effective pool size is
the mod-by-zero panic. -/
theorem should_send_fresh_panic_eq {Msg : Type} {cfg : Config}
    {viewSize draw now : Nat} {r : WriteRouter Msg} {g : GlobalState Msg}
    (hm : r.last_unpersisted = none)
    (hsz : async_io_pool_size cfg viewSize = 0) :
    should_send cfg viewSize draw now none r g = none := by
  simp [should_send, hm, hsz]

/-- `should_send` with rescheduling disabled forwards directly. -/
theorem should_send_disabled_eq {Msg : Type} {cfg : Config}
    {viewSize draw now l : Nat} {r : WriteRouter Msg} {g : GlobalState Msg}
    (hm : r.last_unpersisted = none)
    (hmax : cfg.io_reschedule_concurrent_max_count = 0) :
    should_send cfg viewSize draw now (some l) r g = some (true, r, g) := by
  simp [should_send, hm, hmax]

/-- `should_send` inside the cool-down window forwards directly. -/
theorem should_send_cooldown_eq {Msg : Type} {cfg : Config}
    {viewSize draw now l : Nat} {r : WriteRouter Msg} {g : GlobalState Msg}
    (hm : r.last_unpersisted = none)
    (hmax : cfg.io_reschedule_concurrent_max_count ≠ 0)
    (ht : now ≤ r.next_retry_time) :
    should_send cfg viewSize draw now (some l) r g = some (true, r, g) := by
  simp [should_send, hm, hmax, ht]

/-- `should_send` when the fresh draw re-selects the current worker: only the
retry timer is reset. -/
theorem should_send_self_select_eq {Msg : Type} {cfg : Config}
    {viewSize draw now l : Nat} {r : WriteRouter Msg} {g : GlobalState Msg}
    (hm : r.last_unpersisted = none)
    (hmax : cfg.io_reschedule_concurrent_max_count ≠ 0)
    (ht : ¬ now ≤ r.next_retry_time)
    (hnw : r.next_writer_id = none)
    (hsz : async_io_pool_size cfg viewSize ≠ 0)
    (hid : draw % async_io_pool_size cfg viewSize = r.writer_id) :
    should_send cfg viewSize draw now (some l) r g =
      some (true,
        { r with next_retry_time := now + cfg.io_reschedule_hotpot_duration },
        g) := by
  simp [should_send, hm, hmax, ht, hnw, hsz, hid]

/-- `should_send` when a distinct candidate is freshly drawn: record it and
try the gate. -/
theorem should_send_new_candidate_eq {Msg : Type} {cfg : Config}
    {viewSize draw now l : Nat} {r : WriteRouter Msg} {g : GlobalState Msg}
    (hm : r.last_unpersisted = none)
    (hmax : cfg.io_reschedule_concurrent_max_count ≠ 0)
    (ht : ¬ now ≤ r.next_retry_time)
    (hnw : r.next_writer_id = none)
    (hsz : async_io_pool_size cfg viewSize ≠ 0)
    (hid : draw % async_io_pool_size cfg viewSize ≠ r.writer_id) :
    should_send cfg viewSize draw now (some l) r g =
      some (tryGate cfg now (some l)
        { r with next_writer_id := some (draw % async_io_pool_size cfg viewSize) }
        g) := by
  simp [should_send, hm, hmax, ht, hnw, hsz, hid]

/-- `should_send` with a retained candidate goes straight to the gate. -/
theorem should_send_retained_candidate_eq {Msg : Type} {cfg : Config}
    {viewSize draw now l nid : Nat} {r : WriteRouter Msg} {g : GlobalState Msg}
    (hm : r.last_unpersisted = none)
    (hmax : cfg.io_reschedule_concurrent_max_count ≠ 0)
    (ht : ¬ now ≤ r.next_retry_time)
    (hnw : r.next_writer_id = some nid) :
    should_send cfg viewSize draw now (some l) r g =
      some (tryGate cfg now (some l) r g) := by
  simp [should_send, hm, hmax, ht, hnw]

/-- The gate compare-and-update below the cap: counter and peer gauge go up,
the migration is recorded, the message is to be buffered. -/
theorem tryGate_success_eq {Msg : Type} {cfg : Config} {now : Nat}
    {lu : Option Nat} {r : WriteRouter Msg} {g : GlobalState Msg}
    (hg : g.io_reschedule_concurrent_count <
      cfg.io_reschedule_concurrent_max_count) :
    tryGate cfg now lu r g =
      (false, { r with last_unpersisted := lu },
        { g with
            io_reschedule_concurrent_count := g.io_reschedule_concurrent_count + 1
            reschedule_peer_gauge := g.reschedule_peer_gauge + 1 }) := by
  simp [tryGate, hg]

/-- The gate compare-and-update at the cap: back off by
`RETRY_SCHEDULE_MILLISECONDS` and keep sending to the current worker. -/
theorem tryGate_fail_eq {Msg : Type} {cfg : Config} {now : Nat}
    {lu : Option Nat} {r : WriteRouter Msg} {g : GlobalState Msg}
    (hg : ¬ g.io_reschedule_concurrent_count <
      cfg.io_reschedule_concurrent_max_count) :
    tryGate cfg now lu r g =
      (true, { r with next_retry_time := now + RETRY_SCHEDULE_MILLISECONDS },
        g) := by
  simp [tryGate, hg]

/-- `check_new_persisted` with no migration in flight returns immediately. -/
theorem check_new_persisted_no_migration {Msg : Type} {cfg : Config}
    {viewSize now : Nat} {oracle : Nat → TrySendResult} {p : Nat}
    {r : WriteRouter Msg} {g : GlobalState Msg}
    (hlu : r.last_unpersisted = none) :
    check_new_persisted cfg viewSize now oracle p r g = some (r, g) := by
  simp [check_new_persisted, hlu]

/-- `check_new_persisted` with a persisted number below the migration
threshold returns immediately. -/
theorem check_new_persisted_below_threshold {Msg : Type} {cfg : Config}
    {viewSize now : Nat} {oracle : Nat → TrySendResult} {p n : Nat}
    {r : WriteRouter Msg} {g : GlobalState Msg}
    (hlu : r.last_unpersisted = some n) (hp : p < n) :
    check_new_persisted cfg viewSize now oracle p r g = some (r, g) := by
  simp [check_new_persisted, hlu, hp]

/-- `check_new_persisted` at or past the threshold completes the migration:
it decrements the counter, installs the candidate writer and drains the
buffer. -/
theorem check_new_persisted_completes {Msg : Type} {cfg : Config}
    {viewSize now : Nat} {oracle : Nat → TrySendResult} {p n nid : Nat}
    {r : WriteRouter Msg} {g : GlobalState Msg}
    (hlu : r.last_unpersisted = some n) (hp : ¬ p < n)
    (hnw : r.next_writer_id = some nid) :
    check_new_persisted cfg viewSize now oracle p r g =
      drain viewSize oracle 0 r.pending_write_msgs
        (completionRouter cfg now nid r)
        (completionGlobal g r.pending_write_msgs.length) := by
  simp [check_new_persisted, hlu, hp, hnw]

/-- `check_new_persisted` at or past the threshold with no candidate set is
the `unwrap` panic. -/
theorem check_new_persisted_unwrap_panic {Msg : Type} {cfg : Config}
    {viewSize now : Nat} {oracle : Nat → TrySendResult} {p n : Nat}
    {r : WriteRouter Msg} {g : GlobalState Msg}
    (hlu : r.last_unpersisted = some n) (hp : ¬ p < n)
    (hnw : r.next_writer_id = none) :
    check_new_persisted cfg viewSize now oracle p r g = none := by
  simp [check_new_persisted, hlu, hp, hnw]

/-- `should_send` preserves the router invariant. -/
theorem should_send_inv {Msg : Type} {cfg : Config} {viewSize draw now : Nat}
    {lu : Option Nat} {r r' : WriteRouter Msg} {g g' : GlobalState Msg} {b : Bool}
    (h : should_send cfg viewSize draw now lu r g = some (b, r', g'))
    (hinv : RouterInv r) : RouterInv r' := by
  obtain ⟨hd, hc⟩ := hinv
  unfold should_send tryGate at h
  by_cases hm : r.last_unpersisted.isSome
  · rw [if_pos hm] at h
    simp only [Option.some.injEq, Prod.mk.injEq] at h
    obtain ⟨-, hr, -⟩ := h
    subst hr
    exact ⟨hd, hc⟩
  rw [if_neg hm] at h
  have hnone : r.last_unpersisted = none := Option.not_isSome_iff_eq_none.mp hm
  by_cases hlu : lu.isNone
  · rw [if_pos hlu] at h
    by_cases hsz : async_io_pool_size cfg viewSize = 0
    · rw [if_pos hsz] at h
      simp at h
    · rw [if_neg hsz] at h
      simp only [Option.some.injEq, Prod.mk.injEq] at h
      obtain ⟨-, hr, -⟩ := h
      subst hr
      constructor
      · intro id hx
        simp at hx
      · intro hx
        simp [hnone] at hx
  rw [if_neg hlu] at h
  by_cases hmax : cfg.io_reschedule_concurrent_max_count = 0
  · rw [if_pos hmax] at h
    simp only [Option.some.injEq, Prod.mk.injEq] at h
    obtain ⟨-, hr, -⟩ := h
    subst hr
    exact ⟨hd, hc⟩
  rw [if_neg hmax] at h
  by_cases ht : now ≤ r.next_retry_time
  · rw [if_pos ht] at h
    simp only [Option.some.injEq, Prod.mk.injEq] at h
    obtain ⟨-, hr, -⟩ := h
    subst hr
    exact ⟨hd, hc⟩
  rw [if_neg ht] at h
  by_cases hnw : r.next_writer_id.isNone
  · rw [if_pos hnw] at h
    by_cases hsz : async_io_pool_size cfg viewSize = 0
    · rw [if_pos hsz] at h
      simp at h
    rw [if_neg hsz] at h
    by_cases hid : draw % async_io_pool_size cfg viewSize = r.writer_id
    · rw [if_pos hid] at h
      simp only [Option.some.injEq, Prod.mk.injEq] at h
      obtain ⟨-, hr, -⟩ := h
      subst hr
      exact ⟨fun id hx => hd id hx, fun hx => hc hx⟩
    rw [if_neg hid] at h
    by_cases hgate : g.io_reschedule_concurrent_count < cfg.io_reschedule_concurrent_max_count
    · rw [if_pos hgate] at h
      simp only [Option.some.injEq, Prod.mk.injEq] at h
      obtain ⟨-, hr, -⟩ := h
      subst hr
      constructor
      · intro id hx
        simp only [Option.some.injEq] at hx
        subst hx
        simpa using hid
      · intro hx
        simp
    · rw [if_neg hgate] at h
      simp only [Option.some.injEq, Prod.mk.injEq] at h
      obtain ⟨-, hr, -⟩ := h
      subst hr
      constructor
      · intro id hx
        simp only [Option.some.injEq] at hx
        subst hx
        simpa using hid
      · intro hx
        simp [hnone] at hx
  · rw [if_neg hnw] at h
    have hsome : r.next_writer_id.isSome = true := by
      cases hx : r.next_writer_id with
      | none => exact absurd (by simp [hx]) hnw
      | some nid => simp
    by_cases hgate : g.io_reschedule_concurrent_count < cfg.io_reschedule_concurrent_max_count
    · rw [if_pos hgate] at h
      simp only [Option.some.injEq, Prod.mk.injEq] at h
      obtain ⟨-, hr, -⟩ := h
      subst hr
      constructor
      · intro id hx
        exact hd id hx
      · intro hx
        exact hsome
    · rw [if_neg hgate] at h
      simp only [Option.some.injEq, Prod.mk.injEq] at h
      obtain ⟨-, hr, -⟩ := h
      subst hr
      constructor
      · intro id hx
        exact hd id hx
      · intro hx
        simp [hnone] at hx

/-- `send_write_msg` preserves the router invariant. -/
theorem send_write_msg_inv {Msg : Type} {cfg : Config} {viewSize draw now : Nat}
    {res : TrySendResult} {lu : Option Nat} {msg : Msg}
    {r r' : WriteRouter Msg} {g g' : GlobalState Msg}
    (h : send_write_msg cfg viewSize draw now res lu msg r g = some (r', g'))
    (hinv : RouterInv r) : RouterInv r' := by
  unfold send_write_msg at h
  have hinv0 : RouterInv (if lu.isNone then { r with last_msg_priority := none } else r) := by
    split
    · exact hinv
    · exact hinv
  cases hss : should_send cfg viewSize draw now lu
      (if lu.isNone then { r with last_msg_priority := none } else r) g with
  | none =>
      rw [hss] at h
      exact absurd h (by simp)
  | some t =>
      obtain ⟨b, r1, g1⟩ := t
      have hinv1 : RouterInv r1 := should_send_inv hss hinv0
      rw [hss] at h
      cases b with
      | true =>
          replace h : send viewSize res r1 g1 msg = some (r', g') := h
          obtain ⟨-, hw, hnw, hlu, -, -, -⟩ := send_some_spec h
          exact ⟨fun id hx => hw ▸ hinv1.1 id (hnw ▸ hx), fun hx => hnw ▸ hinv1.2 (hlu ▸ hx)⟩
      | false =>
          replace h :
              (some ({ r1 with pending_write_msgs := r1.pending_write_msgs ++ [msg] },
                { g1 with pending_tasks_gauge := g1.pending_tasks_gauge + 1 }) :
                Option (WriteRouter Msg × GlobalState Msg)) = some (r', g') := h
          simp only [Option.some.injEq, Prod.mk.injEq] at h
          obtain ⟨hr, -⟩ := h
          subst hr
          exact ⟨fun id hx => hinv1.1 id hx, fun hx => hinv1.2 hx⟩

/-- `check_new_persisted` preserves the router invariant. -/
theorem check_new_persisted_inv {Msg : Type} {cfg : Config} {viewSize now : Nat}
    {oracle : Nat → TrySendResult} {p : Nat}
    {r r' : WriteRouter Msg} {g g' : GlobalState Msg}
    (h : check_new_persisted cfg viewSize now oracle p r g = some (r', g'))
    (hinv : RouterInv r) : RouterInv r' := by
  cases hlu : r.last_unpersisted with
  | none =>
      rw [check_new_persisted_no_migration hlu] at h
      simp only [Option.some.injEq, Prod.mk.injEq] at h
      obtain ⟨hr, -⟩ := h
      subst hr
      exact hinv
  | some n =>
      by_cases hp : p < n
      · rw [check_new_persisted_below_threshold hlu hp] at h
        simp only [Option.some.injEq, Prod.mk.injEq] at h
        obtain ⟨hr, -⟩ := h
        subst hr
        exact hinv
      · cases hnw : r.next_writer_id with
        | none =>
            rw [check_new_persisted_unwrap_panic hlu hp hnw] at h
            exact absurd h (by simp)
        | some nid =>
            rw [check_new_persisted_completes hlu hp hnw] at h
            obtain ⟨-, hnw', hlu', -⟩ :=
              drain_frame viewSize oracle _ 0 _ r' _ g' h
            constructor
            · intro id hx
              rw [hnw'] at hx
              simp [completionRouter] at hx
            · intro hx
              rw [hlu'] at hx
              simp [completionRouter] at hx

/-- Every reachable state satisfies the router invariant. -/
theorem routerInv_reachable {Msg : Type} :
    ∀ s : WriteRouter Msg × GlobalState Msg, Reachable s → RouterInv s.1 := by
  intro s h
  induction h with
  | init tag now =>
      constructor
      · intro id hx
        simp [WriteRouter.new] at hx
      · intro hx
        simp [WriteRouter.new] at hx
  | sendStep cfg viewSize draw now res lu msg s s' hr heq ih =>
      obtain ⟨r2, g2⟩ := s'
      exact send_write_msg_inv heq ih
  | persistStep cfg viewSize now oracle p s s' hr heq ih =>
      obtain ⟨r2, g2⟩ := s'
      exact check_new_persisted_inv heq ih
  | extGate c s hr ih => exact ih

/-- C1: with a migration in flight (`last_unpersisted = some n`) and a
persisted number `p ≥ n`, `check_new_persisted` decrements the gate counter
by one, installs the previous `next_writer_id` as `writer_id` clearing the
candidate, clears `last_unpersisted`, sets `next_retry_time` to
`now + io_reschedule_hotpot_duration`, and sends every buffered message to
the new worker in buffer order, leaving the buffer empty. -/
theorem check_new_persisted_migration_postcondition {Msg : Type} (cfg : Config)
    (viewSize now : Nat) (oracle : Nat → TrySendResult) (p n nid : Nat)
    (r : WriteRouter Msg) (g : GlobalState Msg)
    (hlu : r.last_unpersisted = some n) (hp : n ≤ p)
    (hnw : r.next_writer_id = some nid) (hb : nid < viewSize)
    (hok : ∀ i, (oracle i).succeeds = true)
    (hc0 : 0 < g.io_reschedule_concurrent_count)
    (hcM : g.io_reschedule_concurrent_count < USIZE_MOD) :
    ∃ r' g', check_new_persisted cfg viewSize now oracle p r g = some (r', g') ∧
      r'.writer_id = nid ∧
      r'.next_writer_id = none ∧
      r'.last_unpersisted = none ∧
      r'.next_retry_time = now + cfg.io_reschedule_hotpot_duration ∧
      r'.pending_write_msgs = [] ∧
      g'.io_reschedule_concurrent_count = g.io_reschedule_concurrent_count - 1 ∧
      g'.delivered = g.delivered ++ r.pending_write_msgs.map (fun m => (nid, m)) := by
  obtain ⟨r', g', hdr, hw, hnwf, hluf, hrtf, hpf, hcntf, hdelf⟩ :=
    drain_spec viewSize oracle hok r.pending_write_msgs 0
      (completionRouter cfg now nid r)
      (completionGlobal g r.pending_write_msgs.length) hb
  refine ⟨r', g', ?_, ?_, ?_, ?_, ?_, ?_, ?_, ?_⟩
  · rw [check_new_persisted_completes hlu (by omega) hnw]
    exact hdr
  · rw [hw]; rfl
  · rw [hnwf]; rfl
  · rw [hluf]; rfl
  · rw [hrtf]; rfl
  · rw [hpf]; rfl
  · rw [hcntf]
    exact usizeDec_eq hc0 hcM
  · rw [hdelf]
    unfold completionGlobal completionRouter
    congr 1

/-- C1 witness: a concrete migrating router with two buffered messages. -/
theorem check_new_persisted_migration_postcondition_witness :
    ∃ r' g', check_new_persisted ⟨4, 4, 5⟩ 4 7 (fun _ => TrySendResult.ok none) 10
        (⟨"1", 0, 0, some 1, some 10, [(), ()], none⟩ : WriteRouter Unit)
        ⟨1, 2, 1, 0, []⟩ = some (r', g') ∧
      r'.writer_id = 1 ∧
      r'.next_writer_id = none ∧
      r'.last_unpersisted = none ∧
      r'.next_retry_time = 12 ∧
      r'.pending_write_msgs = [] ∧
      g'.io_reschedule_concurrent_count = 0 ∧
      g'.delivered = [(1, ()), (1, ())] :=
  check_new_persisted_migration_postcondition ⟨4, 4, 5⟩ 4 7
    (fun _ => TrySendResult.ok none) 10 10 1
    ⟨"1", 0, 0, some 1, some 10, [(), ()], none⟩ ⟨1, 2, 1, 0, []⟩
    rfl (by decide) rfl (by decide) (fun _ => rfl) (by decide) (by decide)

/-- C2: with a migration in flight, `send_write_msg` never forwards the
message: `should_send` answers `false` and the message is appended to
`pending_write_msgs` (incrementing the pending-task gauge), for every `lu`
argument. -/
theorem send_write_msg_buffers_when_migrating {Msg : Type} (cfg : Config)
    (viewSize draw now : Nat) (res : TrySendResult) (lu : Option Nat)
    (msg : Msg) (r : WriteRouter Msg) (g : GlobalState Msg)
    (hm : r.last_unpersisted.isSome = true) :
    should_send cfg viewSize draw now lu r g = some (false, r, g) ∧
    ∃ r' g', send_write_msg cfg viewSize draw now res lu msg r g = some (r', g') ∧
      r'.pending_write_msgs = r.pending_write_msgs ++ [msg] ∧
      g'.pending_tasks_gauge = g.pending_tasks_gauge + 1 ∧
      g'.delivered = g.delivered ∧
      g'.io_reschedule_concurrent_count = g.io_reschedule_concurrent_count ∧
      r'.writer_id = r.writer_id ∧
      r'.next_writer_id = r.next_writer_id ∧
      r'.last_unpersisted = r.last_unpersisted := by
  have hm0 : (if lu.isNone then { r with last_msg_priority := none }
      else r).last_unpersisted.isSome = true := by
    split
    · exact hm
    · exact hm
  have hpend : (if lu.isNone then { r with last_msg_priority := none }
      else r).pending_write_msgs = r.pending_write_msgs := by
    split
    · rfl
    · rfl
  have hwrt : (if lu.isNone then { r with last_msg_priority := none }
      else r).writer_id = r.writer_id := by
    split
    · rfl
    · rfl
  have hnxt : (if lu.isNone then { r with last_msg_priority := none }
      else r).next_writer_id = r.next_writer_id := by
    split
    · rfl
    · rfl
  have hlast : (if lu.isNone then { r with last_msg_priority := none }
      else r).last_unpersisted = r.last_unpersisted := by
    split
    · rfl
    · rfl
  have hcall : send_write_msg cfg viewSize draw now res lu msg r g =
      some ({ (if lu.isNone then { r with last_msg_priority := none } else r) with
          pending_write_msgs :=
            (if lu.isNone then { r with last_msg_priority := none }
              else r).pending_write_msgs ++ [msg] },
        { g with pending_tasks_gauge := g.pending_tasks_gauge + 1 }) := by
    unfold send_write_msg
    rw [should_send_migrating_eq hm0]
  refine ⟨should_send_migrating_eq hm, _, _, hcall, ?_, rfl, rfl, rfl, ?_, ?_, ?_⟩
  · show (if lu.isNone then { r with last_msg_priority := none }
        else r).pending_write_msgs ++ [msg] = r.pending_write_msgs ++ [msg]
    rw [hpend]
  · exact hwrt
  · exact hnxt
  · exact hlast

/-- C2 witness: a concrete migrating router buffering one more message. -/
theorem send_write_msg_buffers_when_migrating_witness :
    should_send ⟨4, 1, 5⟩ 4 0 0 (some 20)
        (⟨"1", 0, 0, some 1, some 10, [()], some 2⟩ : WriteRouter Unit)
        ⟨1, 1, 1, 0, []⟩ =
      some (false, ⟨"1", 0, 0, some 1, some 10, [()], some 2⟩, ⟨1, 1, 1, 0, []⟩) ∧
    ∃ r' g', send_write_msg ⟨4, 1, 5⟩ 4 0 0 (TrySendResult.ok none) (some 20) ()
        (⟨"1", 0, 0, some 1, some 10, [()], some 2⟩ : WriteRouter Unit)
        ⟨1, 1, 1, 0, []⟩ = some (r', g') ∧
      r'.pending_write_msgs = [()] ++ [()] ∧
      g'.pending_tasks_gauge = 1 + 1 ∧
      g'.delivered = [] ∧
      g'.io_reschedule_concurrent_count = 1 ∧
      r'.writer_id = 0 ∧
      r'.next_writer_id = some 1 ∧
      r'.last_unpersisted = some 10 :=
  send_write_msg_buffers_when_migrating ⟨4, 1, 5⟩ 4 0 0 (TrySendResult.ok none)
    (some 20) () ⟨"1", 0, 0, some 1, some 10, [()], some 2⟩ ⟨1, 1, 1, 0, []⟩ rfl

/-- C5: when a candidate is already set and the gate compare-and-update fails
(counter at the cap), `should_send` bumps `next_retry_time` to
`now + RETRY_SCHEDULE_MILLISECONDS` (10 ms), answers `true` so the message
goes to the current worker, and leaves `next_writer_id` (and everything else)
unchanged, retaining the candidate for the next attempt. -/
theorem gate_full_retry_backoff {Msg : Type} (cfg : Config)
    (viewSize draw now l nid : Nat) (res : TrySendResult) (msg : Msg)
    (r : WriteRouter Msg) (g : GlobalState Msg)
    (hm : r.last_unpersisted = none)
    (hnw : r.next_writer_id = some nid)
    (hmax : cfg.io_reschedule_concurrent_max_count ≠ 0)
    (ht : ¬ now ≤ r.next_retry_time)
    (hgate : ¬ g.io_reschedule_concurrent_count <
      cfg.io_reschedule_concurrent_max_count)
    (hb : r.writer_id < viewSize) (hs : res.succeeds = true) :
    ∃ r' g', send_write_msg cfg viewSize draw now res (some l) msg r g =
        some (r', g') ∧
      r'.next_retry_time = now + RETRY_SCHEDULE_MILLISECONDS ∧
      r'.next_writer_id = some nid ∧
      r'.writer_id = r.writer_id ∧
      r'.last_unpersisted = none ∧
      g'.io_reschedule_concurrent_count = g.io_reschedule_concurrent_count ∧
      g'.delivered = g.delivered ++ [(r.writer_id, msg)] := by
  have hm' : r.last_unpersisted.isSome = false := by rw [hm]; rfl
  have hss : should_send cfg viewSize draw now (some l) r g =
      some (true, { r with next_retry_time := now + RETRY_SCHEDULE_MILLISECONDS },
        g) := by
    rw [should_send_retained_candidate_eq hm hmax ht hnw, tryGate_fail_eq hgate]
  obtain ⟨r', g', hsend⟩ := send_succeeds viewSize res
    { r with next_retry_time := now + RETRY_SCHEDULE_MILLISECONDS } g msg hb hs
  obtain ⟨-, hw, hnwp, hlup, hrtp, -, hcnt, -, -, hdel, -⟩ := send_some_spec hsend
  refine ⟨r', g', ?_, ?_, ?_, ?_, ?_, hcnt, hdel⟩
  · unfold send_write_msg
    rw [show (if (some l : Option Nat).isNone = true then
        { r with last_msg_priority := none } else r) = r from rfl]
    rw [hss]
    exact hsend
  · rw [hrtp]
  · rw [hnwp]
    exact hnw
  · rw [hw]
  · rw [hlup]
    exact hm

/-- C5 witness: concrete saturated gate with a retained candidate. -/
theorem gate_full_retry_backoff_witness :
    ∃ r' g', send_write_msg ⟨4, 2, 5⟩ 4 3 7 (TrySendResult.ok (some 5)) (some 30) ()
        (⟨"1", 1, 3, some 2, none, [], some 4⟩ : WriteRouter Unit)
        ⟨2, 0, 0, 0, []⟩ = some (r', g') ∧
      r'.next_retry_time = 7 + RETRY_SCHEDULE_MILLISECONDS ∧
      r'.next_writer_id = some 2 ∧
      r'.writer_id = 1 ∧
      r'.last_unpersisted = none ∧
      g'.io_reschedule_concurrent_count = 2 ∧
      g'.delivered = [(1, ())] :=
  gate_full_retry_backoff ⟨4, 2, 5⟩ 4 3 7 30 2 (TrySendResult.ok (some 5)) ()
    ⟨"1", 1, 3, some 2, none, [], some 4⟩ ⟨2, 0, 0, 0, []⟩
    rfl rfl (by decide) (by decide) (by decide) (by decide) rfl

/-- C7: with no candidate set, a fresh draw equal to the current `writer_id`
only resets `next_retry_time` to `now + io_reschedule_hotpot_duration` and
answers `true`: the gate counter is untouched and the router does not enter
the migrating state. -/
theorem self_select_is_not_migration {Msg : Type} (cfg : Config)
    (viewSize draw now l : Nat) (r : WriteRouter Msg) (g : GlobalState Msg)
    (hm : r.last_unpersisted = none)
    (hmax : cfg.io_reschedule_concurrent_max_count ≠ 0)
    (ht : ¬ now ≤ r.next_retry_time)
    (hnw : r.next_writer_id = none)
    (hsz : async_io_pool_size cfg viewSize ≠ 0)
    (hid : draw % async_io_pool_size cfg viewSize = r.writer_id) :
    should_send cfg viewSize draw now (some l) r g =
      some (true,
        { r with next_retry_time := now + cfg.io_reschedule_hotpot_duration },
        g) :=
  should_send_self_select_eq hm hmax ht hnw hsz hid

/-- C7 witness: draw 5 over effective pool 4 re-selects worker 1. -/
theorem self_select_is_not_migration_witness :
    should_send ⟨4, 2, 6⟩ 4 5 9 (some 10)
        (⟨"1", 1, 3, none, none, [], none⟩ : WriteRouter Unit)
        ⟨0, 0, 0, 0, []⟩ =
      some (true, ⟨"1", 1, 15, none, none, [], none⟩, ⟨0, 0, 0, 0, []⟩) :=
  self_select_is_not_migration ⟨4, 2, 6⟩ 4 5 9 10
    ⟨"1", 1, 3, none, none, [], none⟩ ⟨0, 0, 0, 0, []⟩
    rfl (by decide) (by decide) rfl (by decide) (by decide)

/-- C8: with a migration in flight at threshold `n`, `check_new_persisted`
with `p < n` returns with the router state, the environment (gate counter,
gauges) and the delivery trace all exactly unchanged. -/
theorem check_new_persisted_early_noop {Msg : Type} (cfg : Config)
    (viewSize now : Nat) (oracle : Nat → TrySendResult) (p n : Nat)
    (r : WriteRouter Msg) (g : GlobalState Msg)
    (hlu : r.last_unpersisted = some n) (hp : p < n) :
    check_new_persisted cfg viewSize now oracle p r g = some (r, g) :=
  check_new_persisted_below_threshold hlu hp

/-- C8 witness: persisted number 9 below threshold 10 changes nothing. -/
theorem check_new_persisted_early_noop_witness :
    check_new_persisted ⟨4, 4, 5⟩ 4 7 (fun _ => TrySendResult.ok none) 9
        (⟨"1", 0, 0, some 1, some 10, [(), ()], none⟩ : WriteRouter Unit)
        ⟨1, 2, 1, 0, []⟩ =
      some (⟨"1", 0, 0, some 1, some 10, [(), ()], none⟩, ⟨1, 2, 1, 0, []⟩) :=
  check_new_persisted_early_noop ⟨4, 4, 5⟩ 4 7 (fun _ => TrySendResult.ok none)
    9 10 ⟨"1", 0, 0, some 1, some 10, [(), ()], none⟩ ⟨1, 2, 1, 0, []⟩
    rfl (by decide)

/-- C10: when `try_send` reports the channel full and the blocking fallback
`send` succeeds, the router is returned exactly unchanged — in particular
`last_msg_priority` keeps its previous value, so the next message is sent
with the same lower priority bound as the message that overflowed; only the
delivery trace and the block-wait histogram move. -/
theorem full_fallback_keeps_priority {Msg : Type} (viewSize : Nat) (msg : Msg)
    (r : WriteRouter Msg) (g : GlobalState Msg)
    (hb : r.writer_id < viewSize) :
    send viewSize (TrySendResult.full true) r g msg =
      some (r,
        { g with
            delivered := g.delivered ++ [(r.writer_id, msg)]
            block_wait_observations := g.block_wait_observations + 1 }) := by
  simp [send, hb]

/-- C10 witness: a full channel with successful blocking fallback keeps the
priority token `some 6`. -/
theorem full_fallback_keeps_priority_witness :
    send 4 (TrySendResult.full true)
        (⟨"1", 2, 3, none, some 10, [], some 6⟩ : WriteRouter Unit)
        ⟨1, 0, 0, 0, []⟩ () =
      some (⟨"1", 2, 3, none, some 10, [], some 6⟩, ⟨1, 0, 0, 1, [(2, ())]⟩) :=
  full_fallback_keeps_priority 4 () ⟨"1", 2, 3, none, some 10, [], some 6⟩
    ⟨1, 0, 0, 0, []⟩ (by decide)

/-- With rescheduling disabled and no migration in flight, a `send_write_msg`
carrying an outstanding write leaves `writer_id` and `last_unpersisted`
alone. -/
theorem send_write_msg_disabled_frame {Msg : Type} {cfg : Config}
    {viewSize draw now l : Nat} {res : TrySendResult} {msg : Msg}
    {r r' : WriteRouter Msg} {g g' : GlobalState Msg}
    (hmax : cfg.io_reschedule_concurrent_max_count = 0)
    (hlu : r.last_unpersisted = none)
    (h : send_write_msg cfg viewSize draw now res (some l) msg r g =
      some (r', g')) :
    r'.writer_id = r.writer_id ∧ r'.last_unpersisted = none := by
  unfold send_write_msg at h
  rw [show (if (some l : Option Nat).isNone = true then
      { r with last_msg_priority := none } else r) = r from rfl,
    should_send_disabled_eq hlu hmax] at h
  replace h : send viewSize res r g msg = some (r', g') := h
  obtain ⟨-, hw, -, hlup, -, -, -, -, -, -, -⟩ := send_some_spec h
  exact ⟨hw, hlup.trans hlu⟩

/-- C9: in every state reachable through `new`, `send_write_msg` and
`check_new_persisted` (with the shared counter possibly moved by other
peers), a migration in flight implies a candidate writer is set, so the
`self.next_writer_id.take().unwrap()` executed by `check_new_persisted` on
migration completion never panics. -/
theorem reachable_migration_has_candidate {Msg : Type}
    (s : WriteRouter Msg × GlobalState Msg) (h : Reachable s)
    (hm : s.1.last_unpersisted.isSome = true) :
    s.1.next_writer_id.isSome = true :=
  (routerInv_reachable s h).2 hm

/-- C9 witness: the reachable migrating state after one gated send. -/
theorem reachable_migration_has_candidate_witness :
    Reachable ((⟨"1", 0, 0, some 1, some 10, [()], none⟩ : WriteRouter Unit),
      ⟨1, 1, 1, 0, []⟩) ∧
    (⟨"1", 0, 0, some 1, some 10, [()], none⟩ :
      WriteRouter Unit).last_unpersisted.isSome = true ∧
    (⟨"1", 0, 0, some 1, some 10, [()], none⟩ :
      WriteRouter Unit).next_writer_id.isSome = true := by
  have hreach : Reachable
      ((⟨"1", 0, 0, some 1, some 10, [()], none⟩ : WriteRouter Unit),
        ⟨1, 1, 1, 0, []⟩) :=
    Reachable.sendStep ⟨4, 1, 5⟩ 4 1 1 (TrySendResult.ok none) (some 10) ()
      (WriteRouter.new "1" 0, GlobalState.init) _ (Reachable.init "1" 0)
      (by decide)
  exact ⟨hreach, rfl, reachable_migration_has_candidate _ hreach rfl⟩

/-- C3 (amended): in every reachable state, a migration in flight implies
`next_writer_id` is `Some`, and whenever `next_writer_id = Some id` the
target is distinct from `writer_id`. The converse of the first part does not
hold: after a failed gate acquisition `next_writer_id` stays `Some` with no
migration in flight (see the counterexample). -/
theorem candidate_distinct_and_present_when_migrating {Msg : Type}
    (s : WriteRouter Msg × GlobalState Msg) (h : Reachable s) :
    (s.1.last_unpersisted.isSome = true → s.1.next_writer_id.isSome = true) ∧
    (∀ id, s.1.next_writer_id = some id → id ≠ s.1.writer_id) :=
  ⟨(routerInv_reachable s h).2, (routerInv_reachable s h).1⟩

/-- C3 witness: the same claim instantiated at a reachable migrating state. -/
theorem candidate_distinct_and_present_when_migrating_witness :
    Reachable ((⟨"1", 0, 0, some 1, some 10, [()], none⟩ : WriteRouter Unit),
      ⟨1, 1, 1, 0, []⟩) ∧
    ((⟨"1", 0, 0, some 1, some 10, [()], none⟩ :
        WriteRouter Unit).last_unpersisted.isSome = true →
      (⟨"1", 0, 0, some 1, some 10, [()], none⟩ :
        WriteRouter Unit).next_writer_id.isSome = true) ∧
    (∀ id, (⟨"1", 0, 0, some 1, some 10, [()], none⟩ :
        WriteRouter Unit).next_writer_id = some id → id ≠ 0) := by
  have hreach : Reachable
      ((⟨"1", 0, 0, some 1, some 10, [()], none⟩ : WriteRouter Unit),
        ⟨1, 1, 1, 0, []⟩) :=
    Reachable.sendStep ⟨4, 1, 5⟩ 4 1 1 (TrySendResult.ok none) (some 10) ()
      (WriteRouter.new "1" 0, GlobalState.init) _ (Reachable.init "1" 0)
      (by decide)
  exact ⟨hreach, (candidate_distinct_and_present_when_migrating _ hreach).1,
    (candidate_distinct_and_present_when_migrating _ hreach).2⟩

/-- C3 counterexample: a reachable state — other peers saturate the gate
(counter externally 1 with cap 1), then one send attempt past the retry time
draws candidate 1 and fails the gate — in which `next_writer_id = some 1`
while no migration is in flight (`last_unpersisted = none`), refuting "Some
iff a migration is in flight". -/
theorem candidate_present_without_migration :
    Reachable ((⟨"1", 0, 11, some 1, none, [], none⟩ : WriteRouter Unit),
      ⟨1, 0, 0, 0, [(0, ())]⟩) ∧
    (⟨"1", 0, 11, some 1, none, [], none⟩ :
      WriteRouter Unit).next_writer_id = some 1 ∧
    (⟨"1", 0, 11, some 1, none, [], none⟩ :
      WriteRouter Unit).last_unpersisted = none := by
  refine ⟨?_, rfl, rfl⟩
  exact Reachable.sendStep ⟨4, 1, 5⟩ 4 1 1 (TrySendResult.ok none) (some 10) ()
    (WriteRouter.new "1" 0,
      { GlobalState.init with io_reschedule_concurrent_count := 1 })
    _ (Reachable.extGate 1 _ (Reachable.init "1" 0)) (by decide)

/-- C4 (amended): whenever the effective pool size
`min(view.size(), store_io_pool_size)` is nonzero, `should_send` cannot
panic, and every index it freshly installs (a new `writer_id` or a new
candidate `next_writer_id`) equals `draw % effective_size`, which is in
range of the cached sender vector. With a zero effective size (empty view or
`store_io_pool_size = 0`) the selection itself is a mod-by-zero panic, shown
by the counterexample. -/
theorem selection_in_range {Msg : Type} (cfg : Config) (viewSize draw now : Nat)
    (lu : Option Nat) (r : WriteRouter Msg) (g : GlobalState Msg)
    (heff : async_io_pool_size cfg viewSize ≠ 0) :
    should_send cfg viewSize draw now lu r g ≠ none ∧
    draw % async_io_pool_size cfg viewSize < viewSize ∧
    ∀ b r' g', should_send cfg viewSize draw now lu r g = some (b, r', g') →
      (r'.writer_id = r.writer_id ∨
        r'.writer_id = draw % async_io_pool_size cfg viewSize) ∧
      (r'.next_writer_id = r.next_writer_id ∨ r'.next_writer_id = none ∨
        r'.next_writer_id = some (draw % async_io_pool_size cfg viewSize)) := by
  have hlt : draw % async_io_pool_size cfg viewSize < viewSize :=
    lt_of_lt_of_le (Nat.mod_lt _ (Nat.pos_of_ne_zero heff))
      (Nat.min_le_left viewSize cfg.store_io_pool_size)
  by_cases hm : r.last_unpersisted.isSome
  · rw [should_send_migrating_eq hm]
    refine ⟨by simp, hlt, ?_⟩
    intro b r' g' h
    simp only [Option.some.injEq, Prod.mk.injEq] at h
    obtain ⟨-, hr, -⟩ := h
    subst hr
    exact ⟨Or.inl rfl, Or.inl rfl⟩
  have hnone : r.last_unpersisted = none := Option.not_isSome_iff_eq_none.mp hm
  cases lu with
  | none =>
      rw [should_send_fresh_eq hnone heff]
      refine ⟨by simp, hlt, ?_⟩
      intro b r' g' h
      simp only [Option.some.injEq, Prod.mk.injEq] at h
      obtain ⟨-, hr, -⟩ := h
      subst hr
      exact ⟨Or.inr rfl, Or.inr (Or.inl rfl)⟩
  | some l =>
      by_cases hmax : cfg.io_reschedule_concurrent_max_count = 0
      · rw [should_send_disabled_eq hnone hmax]
        refine ⟨by simp, hlt, ?_⟩
        intro b r' g' h
        simp only [Option.some.injEq, Prod.mk.injEq] at h
        obtain ⟨-, hr, -⟩ := h
        subst hr
        exact ⟨Or.inl rfl, Or.inl rfl⟩
      by_cases ht : now ≤ r.next_retry_time
      · rw [should_send_cooldown_eq hnone hmax ht]
        refine ⟨by simp, hlt, ?_⟩
        intro b r' g' h
        simp only [Option.some.injEq, Prod.mk.injEq] at h
        obtain ⟨-, hr, -⟩ := h
        subst hr
        exact ⟨Or.inl rfl, Or.inl rfl⟩
      cases hnwc : r.next_writer_id with
      | none =>
          by_cases hid : draw % async_io_pool_size cfg viewSize = r.writer_id
          · rw [should_send_self_select_eq hnone hmax ht hnwc heff hid]
            refine ⟨by simp, hlt, ?_⟩
            intro b r' g' h
            simp only [Option.some.injEq, Prod.mk.injEq] at h
            obtain ⟨-, hr, -⟩ := h
            subst hr
            exact ⟨Or.inl rfl, Or.inl hnwc⟩
          · rw [should_send_new_candidate_eq hnone hmax ht hnwc heff hid]
            by_cases hgate : g.io_reschedule_concurrent_count <
                cfg.io_reschedule_concurrent_max_count
            · rw [tryGate_success_eq hgate]
              refine ⟨by simp, hlt, ?_⟩
              intro b r' g' h
              simp only [Option.some.injEq, Prod.mk.injEq] at h
              obtain ⟨-, hr, -⟩ := h
              subst hr
              exact ⟨Or.inl rfl, Or.inr (Or.inr rfl)⟩
            · rw [tryGate_fail_eq hgate]
              refine ⟨by simp, hlt, ?_⟩
              intro b r' g' h
              simp only [Option.some.injEq, Prod.mk.injEq] at h
              obtain ⟨-, hr, -⟩ := h
              subst hr
              exact ⟨Or.inl rfl, Or.inr (Or.inr rfl)⟩
      | some nid =>
          rw [should_send_retained_candidate_eq hnone hmax ht hnwc]
          by_cases hgate : g.io_reschedule_concurrent_count <
              cfg.io_reschedule_concurrent_max_count
          · rw [tryGate_success_eq hgate]
            refine ⟨by simp, hlt, ?_⟩
            intro b r' g' h
            simp only [Option.some.injEq, Prod.mk.injEq] at h
            obtain ⟨-, hr, -⟩ := h
            subst hr
            exact ⟨Or.inl rfl, Or.inl hnwc⟩
          · rw [tryGate_fail_eq hgate]
            refine ⟨by simp, hlt, ?_⟩
            intro b r' g' h
            simp only [Option.some.injEq, Prod.mk.injEq] at h
            obtain ⟨-, hr, -⟩ := h
            subst hr
            exact ⟨Or.inl rfl, Or.inl hnwc⟩

/-- C4 witness: effective size `min 3 2 = 2`, draw 5 selects index 1 < 3. -/
theorem selection_in_range_witness :
    async_io_pool_size ⟨2, 4, 5⟩ 3 ≠ 0 ∧
    (should_send ⟨2, 4, 5⟩ 3 5 0 none (WriteRouter.new "1" 0)
        (GlobalState.init : GlobalState Unit) ≠ none ∧
      5 % async_io_pool_size ⟨2, 4, 5⟩ 3 < 3 ∧
      ∀ b r' g', should_send ⟨2, 4, 5⟩ 3 5 0 none (WriteRouter.new "1" 0)
          (GlobalState.init : GlobalState Unit) = some (b, r', g') →
        (r'.writer_id = (WriteRouter.new "1" 0 : WriteRouter Unit).writer_id ∨
          r'.writer_id = 5 % async_io_pool_size ⟨2, 4, 5⟩ 3) ∧
        (r'.next_writer_id =
            (WriteRouter.new "1" 0 : WriteRouter Unit).next_writer_id ∨
          r'.next_writer_id = none ∨
          r'.next_writer_id = some (5 % async_io_pool_size ⟨2, 4, 5⟩ 3))) :=
  ⟨by decide, selection_in_range ⟨2, 4, 5⟩ 3 5 0 none (WriteRouter.new "1" 0)
    GlobalState.init (by decide)⟩

/-- C4 counterexample: with an empty cached sender view (and likewise with
`store_io_pool_size = 0`) the selection `rand % async_io_pool_size` divides
by zero, so the call panics — an observable error, refuting the "for every
view size and configured pool size (including an empty view or
store_io_pool_size = 0)" clause. -/
theorem selection_panics_on_empty_view :
    send_write_msg ⟨4, 4, 5⟩ 0 7 0 (TrySendResult.ok none) none ()
        (WriteRouter.new "1" 0) (GlobalState.init : GlobalState Unit) = none ∧
    send_write_msg ⟨0, 4, 5⟩ 4 7 0 (TrySendResult.ok none) none ()
        (WriteRouter.new "1" 0) (GlobalState.init : GlobalState Unit) = none := by
  exact ⟨by decide, by decide⟩

/-- C6 (amended): starting from any post-first-send state with no migration
in flight, if every later call's configuration has
`io_reschedule_concurrent_max_count = 0` and every later `send_write_msg`
carries an outstanding write (`last_unpersisted = some _`), then `writer_id`
never changes and no migration ever starts. (A later send with
`last_unpersisted = None` redraws `writer_id` even with the gate disabled —
see the counterexample.) -/
theorem no_migration_when_disabled {Msg : Type} (steps : List (Step Msg)) :
    ∀ (r : WriteRouter Msg) (g : GlobalState Msg) (r' : WriteRouter Msg)
      (g' : GlobalState Msg),
      (∀ st ∈ steps, st.maxCount = 0) →
      r.last_unpersisted = none →
      runSteps steps (r, g) = some (r', g') →
      r'.writer_id = r.writer_id ∧ r'.last_unpersisted = none := by
  induction steps with
  | nil =>
      intro r g r' g' hmax hlu h
      rw [runSteps] at h
      simp only [Option.some.injEq, Prod.mk.injEq] at h
      obtain ⟨hr, -⟩ := h
      subst hr
      exact ⟨rfl, hlu⟩
  | cons st rest ih =>
      intro r g r' g' hmax hlu h
      rw [runSteps] at h
      cases hap : applyStep st (r, g) with
      | none =>
          rw [hap] at h
          exact absurd h (by simp)
      | some s2 =>
          obtain ⟨r2, g2⟩ := s2
          rw [hap] at h
          replace h : runSteps rest (r2, g2) = some (r', g') := h
          have hstep : r2.writer_id = r.writer_id ∧ r2.last_unpersisted = none := by
            cases st with
            | write cfg viewSize draw now res l msg =>
                replace hap : send_write_msg cfg viewSize draw now res (some l)
                    msg r g = some (r2, g2) := hap
                exact send_write_msg_disabled_frame
                  (hmax _ (List.mem_cons_self _ _)) hlu hap
            | persist cfg viewSize now oracle p =>
                replace hap : check_new_persisted cfg viewSize now oracle p r g =
                    some (r2, g2) := hap
                rw [check_new_persisted_no_migration hlu] at hap
                simp only [Option.some.injEq, Prod.mk.injEq] at hap
                obtain ⟨hr2, -⟩ := hap
                subst hr2
                exact ⟨rfl, hlu⟩
          obtain ⟨hw2, hlu2⟩ := hstep
          obtain ⟨hw', hlu'⟩ := ih r2 g2 r' g'
            (fun st2 hst => hmax st2 (List.mem_cons_of_mem _ hst)) hlu2 h
          exact ⟨hw'.trans hw2, hlu'⟩

/-- C6 witness: two disabled-gate steps (a send with outstanding write, then
a persisted-number check) keep `writer_id = 1`. -/
theorem no_migration_when_disabled_witness :
    (∀ st ∈ [Step.write ⟨4, 0, 5⟩ 4 3 9 (TrySendResult.ok none) 10 (),
        Step.persist ⟨4, 0, 5⟩ 4 11 (fun _ => TrySendResult.ok none) 12],
      st.maxCount = 0) ∧
    runSteps [Step.write ⟨4, 0, 5⟩ 4 3 9 (TrySendResult.ok none) 10 (),
        Step.persist ⟨4, 0, 5⟩ 4 11 (fun _ => TrySendResult.ok none) 12]
        ((⟨"1", 1, 5, none, none, [], none⟩ : WriteRouter Unit),
          ⟨0, 0, 0, 0, [(1, ())]⟩) =
      some (⟨"1", 1, 5, none, none, [], none⟩,
        ⟨0, 0, 0, 0, [(1, ()), (1, ())]⟩) ∧
    (⟨"1", 1, 5, none, none, [], none⟩ : WriteRouter Unit).writer_id = 1 ∧
    (⟨"1", 1, 5, none, none, [], none⟩ :
      WriteRouter Unit).last_unpersisted = none := by
  refine ⟨by decide, by decide, ?_⟩
  exact no_migration_when_disabled
    [Step.write ⟨4, 0, 5⟩ 4 3 9 (TrySendResult.ok none) 10 (),
      Step.persist ⟨4, 0, 5⟩ 4 11 (fun _ => TrySendResult.ok none) 12]
    ⟨"1", 1, 5, none, none, [], none⟩ ⟨0, 0, 0, 0, [(1, ())]⟩
    ⟨"1", 1, 5, none, none, [], none⟩ ⟨0, 0, 0, 0, [(1, ()), (1, ())]⟩
    (by decide) rfl (by decide)

/-- C6 counterexample: with `io_reschedule_concurrent_max_count = 0`, a
second `send_write_msg` whose `last_unpersisted` argument is `None` redraws
`writer_id` (1 after the first send, 2 after the second), so `writer_id`
does not stay equal to the value chosen at the first send. -/
theorem writer_id_redrawn_after_first_send :
    send_write_msg ⟨4, 0, 5⟩ 4 1 0 (TrySendResult.ok none) none ()
        (WriteRouter.new "1" 0) (GlobalState.init : GlobalState Unit) =
      some (⟨"1", 1, 5, none, none, [], none⟩, ⟨0, 0, 0, 0, [(1, ())]⟩) ∧
    send_write_msg ⟨4, 0, 5⟩ 4 2 0 (TrySendResult.ok none) none ()
        ⟨"1", 1, 5, none, none, [], none⟩ ⟨0, 0, 0, 0, [(1, ())]⟩ =
      some (⟨"1", 2, 5, none, none, [], none⟩,
        ⟨0, 0, 0, 0, [(1, ()), (2, ())]⟩) ∧
    (⟨"1", 2, 5, none, none, [], none⟩ : WriteRouter Unit).writer_id ≠
      (⟨"1", 1, 5, none, none, [], none⟩ : WriteRouter Unit).writer_id := by
  exact ⟨by decide, by decide, by decide⟩

end WriteRouterModel
